import Mathlib

/-!
Verification of the peer-to-peer chat room core.

This file is a shallow embedding, in Lean 4, of the room/session/message
logic of the chat application (the component `ReliableP2PChatApp`).  The
React state hooks become fields of an `AppState` structure; each event
handler or user operation of the source becomes a pure function
`AppState -> AppState` (threading the state that the handler mutates via
`setX` calls).  External request/response outcomes (signaling responses)
are passed in as parameters.  The JavaScript `Map` keyed by peer id is
embedded as an association list with JS-Map semantics (`set` replaces the
existing entry in place, otherwise appends).  Connection-primitive objects
(`RTCPeerConnection`) are modelled as entries of a store `conns` indexed
by a numeric handle, so that captured references (for example the one held
by a connection-timeout callback) survive removal of the session from the
peer map, exactly as the captured JS object does.  Wire transmissions on
data channels are recorded in a ghost log `wireSent`; the serialized
payload `JSON.stringify` of the object with fields sender and content is
modelled as the `WirePayload` structure.  `JSON.parse` of an inbound
string, which is external library code, is modelled by the two possible
outcomes: a parsed object carrying sender and content, or a thrown
`SyntaxError` (the inductive `InboundData`); the `onmessage` handler of
the source contains no try/catch, so its embedding returns `Except`.
Clock reads (`Date.now`, message timestamps, timer deadlines) use a `now`
field; 30 time units stand for the 30000 ms connection timeout and the
random suffix of message ids is omitted (no claim depends on it).
-/

/-- One entry of the rendered chat log (interface `Message` of the source:
id, sender, content, timestamp, isOwn).  `isOwn = true` marks the local
echo of the user's own message; diagnostics carry sender `"System"`. -/
structure Message where
  id : Nat
  sender : String
  content : String
  timestamp : Nat
  isOwn : Bool
deriving DecidableEq, Repr

/-- State of one connection-primitive object (`RTCPeerConnection`).  The
`connectionState` field holds the JS state string ("new", "connecting",
"connected", "disconnected", "failed", "closed"); `remoteDescription`
records whether `setRemoteDescription` has been applied and
`candidatesAdded` counts `addIceCandidate` calls. -/
structure Conn where
  connectionState : String := "new"
  remoteDescription : Bool := false
  candidatesAdded : Nat := 0
deriving DecidableEq, Repr

/-- A data channel handle; `readyState` holds the JS state string
("connecting", "open", "closing", "closed"). -/
structure DataChannel where
  readyState : String
deriving DecidableEq, Repr

/-- One session entry of the `peers` map (interface `PeerConnection` of
the source).  `connection` is the handle of the owned connection-primitive
in the `conns` store. -/
structure PeerConnection where
  id : String
  username : String
  connection : Nat
  dataChannel : Option DataChannel := none
  connected : Bool
deriving DecidableEq, Repr

/-- A serialized chat payload sent on a data channel: the source builds
the object with fields sender and content and transmits its JSON text. -/
structure WirePayload where
  sender : String
  content : String
deriving DecidableEq, Repr

/-- A message submitted to the signaling server (`sendToSignalingServer`);
offer/answer/candidate descriptions are opaque to the core. -/
inductive SignalOut where
  | offer (target : String)
  | answer (target : String)
  | iceCandidate (target : String)
  | joinRoomReq
  | poll
deriving DecidableEq, Repr

/-- A pending connection timeout (`setTimeout` of 30 time units scheduled
in `createPeerConnection`): the callback captures the connection object
(`connId`) and the target peer id. -/
structure Timeout where
  connId : Nat
  targetPeerId : String
  deadline : Nat
deriving DecidableEq, Repr

/-- The component state: each field is one React state hook (or ref) of
the source, plus the ghost fields `conns` (store of live
connection-primitive objects), `timeouts` (scheduled timers), `signalsOut`
(requests submitted to the signaling server), `wireSent` (payloads
transmitted on data channels, tagged with the receiving peer id) and `now`
(the clock). -/
structure AppState where
  username : String := ""
  roomId : String := ""
  myPeerId : String
  isInRoom : Bool := false
  peers : List (String × PeerConnection) := []
  messages : List Message := []
  messageInput : String := ""
  connectionStatus : String := "Disconnected"
  isConnecting : Bool := false
  polling : Bool := false
  conns : List (Nat × Conn) := []
  nextConnId : Nat := 0
  timeouts : List Timeout := []
  signalsOut : List SignalOut := []
  wireSent : List (String × WirePayload) := []
  now : Nat := 0
deriving DecidableEq, Repr

/-- Lookup in a JS `Map` embedded as an association list (`Map.get`). -/
def alistGet {κ α : Type} [DecidableEq κ] : List (κ × α) → κ → Option α
  | [], _ => none
  | (k, v) :: rest, key => if k = key then some v else alistGet rest key

/-- `Map.set`: replace the entry of an existing key in place, otherwise
append a new entry (JS `Map` insertion-order semantics). -/
def alistSet {κ α : Type} [DecidableEq κ] : List (κ × α) → κ → α → List (κ × α)
  | [], key, v => [(key, v)]
  | (k, w) :: rest, key, v =>
      if k = key then (key, v) :: rest else (k, w) :: alistSet rest key v

/-- `Map.delete`: drop the entries of a key. -/
def alistDelete {κ α : Type} [DecidableEq κ] : List (κ × α) → κ → List (κ × α)
  | [], _ => []
  | (k, v) :: rest, key =>
      if k = key then alistDelete rest key else (k, v) :: alistDelete rest key

/-- The get-then-set update pattern of the source
(`const peer = map.get(key); if (peer) set(key, mutated peer)`). -/
def alistUpdate {κ α : Type} [DecidableEq κ] (m : List (κ × α)) (key : κ) (f : α → α) :
    List (κ × α) :=
  match alistGet m key with
  | some v => alistSet m key (f v)
  | none => m

/-- The keys of the peer map are pairwise distinct (a JS `Map` cannot
hold two entries with the same key). -/
def keysNodup {κ α : Type} (m : List (κ × α)) : Prop :=
  (m.map Prod.fst).Nodup

instance {κ α : Type} [DecidableEq κ] (m : List (κ × α)) : Decidable (keysNodup m) :=
  inferInstanceAs (Decidable (m.map Prod.fst).Nodup)

/-- Removal of leading and trailing whitespace, the JS
`String.prototype.trim` applied by the source to user input; defined over
the character list of the string. -/
def jsTrim (s : String) : String :=
  ⟨(((s.data.dropWhile Char.isWhitespace).reverse).dropWhile Char.isWhitespace).reverse⟩

/-- Build one `Message` record as `addMessage` of the source does (id and
timestamp from the clock; the random id suffix is omitted). -/
def mkMessage (now : Nat) (sender content : String) (isOwn : Bool) : Message :=
  { id := now, sender := sender, content := content, timestamp := now, isOwn := isOwn }

/-- `addMessage(sender, content, isOwn)`: append one message to the log. -/
def addMessage (st : AppState) (sender content : String) (isOwn : Bool := false) : AppState :=
  { st with messages := st.messages ++ [mkMessage st.now sender content isOwn] }

/-- `createPeerConnection(targetPeerId, isInitiator)`: allocate a fresh
connection-primitive, schedule the 30-unit connection timeout, and, for
the initiator, create the chat data channel and emit the offer envelope
(offer creation and `setLocalDescription` are calls on the fresh
connection object).  Returns the new state and the connection handle. -/
def createPeerConnection (st : AppState) (targetPeerId : String) (isInitiator : Bool) :
    AppState × Nat :=
  let cid := st.nextConnId
  let st1 := { st with
    conns := st.conns ++ [(cid, {})],
    nextConnId := cid + 1,
    timeouts := st.timeouts ++ [{ connId := cid, targetPeerId := targetPeerId,
                                  deadline := st.now + 30 }] }
  let st2 := if isInitiator then
    { st1 with signalsOut := st1.signalsOut ++ [SignalOut.offer targetPeerId] }
  else st1
  (st2, cid)

/-- The `dataChannel.onopen` handler installed by `setupDataChannel`:
log readiness and attach the (now open) channel to the peer entry, if one
exists. -/
def dataChannelOnOpen (st : AppState) (peerId : String) : AppState :=
  let st1 := addMessage st "System" ("💬 Chat ready with " ++ peerId.take 6)
  let attach := fun (p : PeerConnection) =>
    { p with dataChannel := some ({ readyState := "open" } : DataChannel) }
  { st1 with peers := alistUpdate st1.peers peerId attach }

/-- Outcome of `JSON.parse` on an inbound data-channel string: either an
object carrying sender and content, or a thrown `SyntaxError` (the string
was not valid JSON). -/
inductive InboundData where
  | parsed (sender content : String)
  | malformed (raw : String)
deriving DecidableEq, Repr

/-- The `dataChannel.onmessage` handler installed by `setupDataChannel`:
`JSON.parse(event.data)` followed by `addMessage(data.sender,
data.content, false)`.  The source wraps neither call in try/catch, so a
parse failure propagates out of the handler (`Except.error`). -/
def dataChannelOnMessage (st : AppState) (d : InboundData) : Except String AppState :=
  match d with
  | InboundData.parsed s c => Except.ok (addMessage st s c false)
  | InboundData.malformed _ => Except.error "SyntaxError: Unexpected token in JSON"

/-- The `dataChannel.onerror` handler installed by `setupDataChannel`. -/
def dataChannelOnError (st : AppState) (peerId err : String) : AppState :=
  addMessage st "System" ("❌ Chat error with " ++ peerId.take 6 ++ ": " ++ err)

/-- A session's channel is usable for sending exactly when it exists and
its `readyState` is "open" (the guard of the send loop). -/
def channelUsable (p : PeerConnection) : Bool :=
  match p.dataChannel with
  | some dc => decide (dc.readyState = "open")
  | none => false

/-- The number of sessions the send loop transmits to (`sentCount`). -/
def sentCount (peers : List (String × PeerConnection)) : Nat :=
  (peers.filter (fun kp => channelUsable kp.2)).length

/-- The peer ids of the sessions with a usable open channel, in map
order. -/
def usableSessions (st : AppState) : List String :=
  (st.peers.filter (fun kp => channelUsable kp.2)).map (fun kp => kp.1)

/-- `sendMessage()`: reject blank input; otherwise serialize
the sender/content object once, transmit it on every session whose data
channel is open (counting the sends), then either append the local echo
and clear the input (some send happened) or append the no-peers
diagnostic (none did). -/
def sendMessage (st : AppState) : AppState :=
  if jsTrim st.messageInput = "" then st
  else
    let content := jsTrim st.messageInput
    let sends := (st.peers.filter (fun kp => channelUsable kp.2)).map
      (fun kp => (kp.1, ({ sender := st.username, content := content } : WirePayload)))
    let st1 := { st with wireSent := st.wireSent ++ sends }
    if 0 < sentCount st.peers then
      { addMessage st1 st.username content true with messageInput := "" }
    else
      addMessage st1 "System" "❌ No connected peers to send message to" false

/-- The number of sessions whose `connected` flag is set (the scan
performed by `updateConnectionStatus` and by the UI). -/
def connectedCount (peers : List (String × PeerConnection)) : Nat :=
  (peers.filter (fun kp => kp.2.connected)).length

/-- The status string `updateConnectionStatus` derives from a peer-map
snapshot. -/
def statusOf (peers : List (String × PeerConnection)) : String :=
  if 0 < connectedCount peers then
    "🌍 Connected to " ++ toString (connectedCount peers) ++ " peer(s)"
  else "Disconnected"

/-- The `pc.onconnectionstatechange` handler: record the primitive's new
state, log it, and on "connected" mark the session connected (on
"disconnected"/"failed", delete the session); in both cases recompute the
status from the peer-map snapshot the handler closed over and clear the
connecting flag. -/
def onConnectionStateChange (st : AppState) (targetPeerId : String) (cid : Nat)
    (newState : String) : AppState :=
  let stalePeers := st.peers
  let setState := fun (c : Conn) => { c with connectionState := newState }
  let st1 := { st with conns := alistUpdate st.conns cid setState }
  let st2 := addMessage st1 "System"
    ("📡 Connection state with " ++ targetPeerId.take 6 ++ ": " ++ newState)
  if newState = "connected" then
    let markConnected := fun (p : PeerConnection) => { p with connected := true }
    let st3 := { st2 with peers := alistUpdate st2.peers targetPeerId markConnected }
    { st3 with connectionStatus := statusOf stalePeers, isConnecting := false }
  else if newState = "disconnected" ∨ newState = "failed" then
    let st3 := { st2 with peers := alistDelete st2.peers targetPeerId }
    { st3 with connectionStatus := statusOf stalePeers, isConnecting := false }
  else st2

/-- The diagnostic text of the connection timeout. -/
def timeoutMsg (pid : String) : String :=
  "⏰ Connection timeout with " ++ pid.take 6 ++
    ". The peer might be offline or behind a restrictive firewall."

/-- The connection-timeout callback scheduled in `createPeerConnection`:
when it fires it reads the captured connection object's state; unless
that state is "connected" it appends the timeout diagnostic and clears
the connecting flag.  It changes no session and no connection state and
nothing ever cancels it. -/
def timeoutFire (st : AppState) (t : Timeout) : AppState :=
  match alistGet st.conns t.connId with
  | some c =>
      if c.connectionState = "connected" then st
      else
        let st1 := addMessage st "System" (timeoutMsg t.targetPeerId)
        { st1 with isConnecting := false }
  | none => st

/-- Handling of `response.offer` inside `pollSignalingServer`: log the
offer, set the connecting flag, create a Responder connection (applying
the offer as remote description, generating and setting the answer, and
emitting the answer envelope), then `Map.set` the fresh session under the
originating peer id — unconditionally, with no check for an existing
session under that id. -/
def handleOffer (st : AppState) (fromId : String) : AppState :=
  let st1 := addMessage st "System" ("📨 Received connection offer from " ++ fromId.take 6)
  let st2 := { st1 with isConnecting := true }
  let r := createPeerConnection st2 fromId false
  let applyRemote := fun (c : Conn) => { c with remoteDescription := true }
  let st3 := { r.1 with conns := alistUpdate r.1.conns r.2 applyRemote }
  let st4 := { st3 with signalsOut := st3.signalsOut ++ [SignalOut.answer fromId] }
  let fresh : PeerConnection :=
    { id := fromId, username := "Peer-" ++ fromId.take 6, connection := r.2,
      dataChannel := none, connected := false }
  { st4 with peers := alistSet st4.peers fromId fresh }

/-- Handling of `response.answer` inside `pollSignalingServer`: log the
answer, then apply it as remote description on the matching session's
connection if one exists; for an unknown peer id nothing further
happens. -/
def handleAnswer (st : AppState) (fromId : String) : AppState :=
  let st1 := addMessage st "System" ("📨 Received connection answer from " ++ fromId.take 6)
  let applyRemote := fun (c : Conn) => { c with remoteDescription := true }
  match alistGet st1.peers fromId with
  | some peer => { st1 with conns := alistUpdate st1.conns peer.connection applyRemote }
  | none => st1

/-- Handling of one entry of `response.iceCandidates` inside
`pollSignalingServer`: add the candidate to the matching session's
connection if one exists; for an unknown peer id the candidate is
silently skipped (no log entry, no state change). -/
def handleCandidate (st : AppState) (fromId : String) : AppState :=
  let addCand := fun (c : Conn) => { c with candidatesAdded := c.candidatesAdded + 1 }
  match alistGet st.peers fromId with
  | some peer => { st with conns := alistUpdate st.conns peer.connection addCand }
  | none => st

/-- Events delivered by one poll response (`{offer?, answer?,
iceCandidates?}`), each tagged only with the originating peer id since
the descriptions are opaque to the core. -/
structure PollResponse where
  offer : Option String := none
  answer : Option String := none
  iceCandidates : List String := []
deriving Repr

/-- `pollSignalingServer()`: submit the poll request, then process the
offer (if any), the answer (if any) and every queued candidate, in that
order. -/
def pollSignalingServer (st : AppState) (resp : PollResponse) : AppState :=
  let st0 := { st with signalsOut := st.signalsOut ++ [SignalOut.poll] }
  let st1 := match resp.offer with
    | some f => handleOffer st0 f
    | none => st0
  let st2 := match resp.answer with
    | some f => handleAnswer st1 f
    | none => st1
  resp.iceCandidates.foldl handleCandidate st2

/-- The join-response payload of the signaling service
(`{success, peers}`). -/
structure JoinResponse where
  success : Bool
  peers : List String := []
deriving Repr

/-- The body of the loop over `response.peers` in `joinRoom`: create an
Initiator connection to the listed peer and `Map.set` the new session. -/
def connectToPeer (st : AppState) (peerId : String) : AppState :=
  let r := createPeerConnection st peerId true
  let fresh : PeerConnection :=
    { id := peerId, username := "Peer-" ++ peerId.take 6, connection := r.2,
      dataChannel := none, connected := false }
  { r.1 with peers := alistSet r.1.peers peerId fresh }

/-- `joinRoom()`: reject blank username or room id with a diagnostic
before any signaling request; otherwise set the connecting flag, log the
attempt, submit the join request, and on a successful response enter the
room, start the poll cycle, and create one Initiator session per listed
peer (or log a waiting notice and clear the connecting flag when none are
listed).  The source has no branch for an unsuccessful response: nothing
further happens there. -/
def joinRoom (st : AppState) (resp : JoinResponse) : AppState :=
  if jsTrim st.username = "" ∨ jsTrim st.roomId = "" then
    addMessage st "System" "❌ Please enter both username and room ID"
  else
    let st1 := { st with isConnecting := true }
    let st2 := addMessage st1 "System" ("🔄 Joining room " ++ st1.roomId ++ "...")
    let st3 := { st2 with signalsOut := st2.signalsOut ++ [SignalOut.joinRoomReq] }
    if resp.success then
      let st4 := { st3 with isInRoom := true }
      let st5 := addMessage st4 "System" ("✅ Joined global room: " ++ st4.roomId)
      let st6 := addMessage st5 "System" "🌍 Ready for worldwide P2P connections!"
      let st7 := { st6 with polling := true }
      if 0 < resp.peers.length then
        let st8 := addMessage st7 "System" ("👥 Found " ++ toString resp.peers.length ++
          " peer(s) in room. Connecting...")
        resp.peers.foldl connectToPeer st8
      else
        let st8 := addMessage st7 "System"
          "👤 You are the first one in this room. Waiting for others..."
        { st8 with isConnecting := false }
    else
      st3

/-- The effect of `close()` on a connection-primitive's state. -/
def closeOne (c : Conn) : Conn := { c with connectionState := "closed" }

/-- Closing of one connection object (`peer.connection.close()`): the
primitive's state becomes "closed"; per its contract the call itself
never fails. -/
def closeConn (conns : List (Nat × Conn)) (cid : Nat) : List (Nat × Conn) :=
  alistUpdate conns cid closeOne

/-- `leaveRoom()`: stop the poll cycle, close every session's connection,
clear the session map, leave the room, reset the status and connecting
flag, and log the departure. -/
def leaveRoom (st : AppState) : AppState :=
  let st1 := { st with polling := false }
  let closedConns := (st1.peers.map (fun kp => kp.2.connection)).foldl closeConn st1.conns
  let st2 := { st1 with conns := closedConns }
  let st3 := { st2 with peers := [] }
  let st4 := { st3 with isInRoom := false }
  let st5 := { st4 with connectionStatus := "Disconnected" }
  let st6 := { st5 with isConnecting := false }
  addMessage st6 "System" "👋 Left the room"

/-- A base in-room state used by the concrete scenarios: alice in room
"ROOM42", one session "p1zzzz" whose link is up (open data channel,
connection 0 in state "connected"). -/
def stBase : AppState :=
  { username := "alice", roomId := "ROOM42", myPeerId := "me1234",
    isInRoom := true, polling := true, now := 100, nextConnId := 1,
    peers := [("p1zzzz",
      { id := "p1zzzz", username := "Peer-p1zzzz", connection := 0,
        dataChannel := some { readyState := "open" }, connected := true })],
    conns := [(0, { connectionState := "connected", remoteDescription := true })],
    timeouts := [{ connId := 0, targetPeerId := "p1zzzz", deadline := 30 }] }

/-- The scenario state for the inbound-offer duplicate-discovery check:
the base state, whose only session "p1zzzz" is connected (neither Failed
nor Closed). -/
def stOffer : AppState := stBase

/-- The scenario state for the malformed-payload check. -/
def stInbound : AppState := stBase

/-- The scenario state for the negotiation-timeout check: a session
"p2yyyy" whose connection (handle 0) is still in state "new" when the
30-unit deadline is reached. -/
def stPending : AppState :=
  { username := "alice", roomId := "ROOM42", myPeerId := "me1234",
    isInRoom := true, polling := true, now := 30, nextConnId := 1,
    peers := [("p2yyyy",
      { id := "p2yyyy", username := "Peer-p2yyyy", connection := 0,
        dataChannel := none, connected := false })],
    conns := [(0, {})],
    timeouts := [{ connId := 0, targetPeerId := "p2yyyy", deadline := 30 }] }

/-- The scenario state for the blank-message check: the base state with
whitespace-only message input. -/
def stBlankInput : AppState := { stBase with messageInput := "   " }

/-- The scenario state for the send checks: the base state with message
input " hi " (trimming to "hi"). -/
def stTyped : AppState := { stBase with messageInput := " hi " }

/-- A not-yet-in-room state with valid inputs, used by the join
scenarios. -/
def stLobby : AppState :=
  { username := "alice", roomId := "ROOM42", myPeerId := "me1234", now := 5 }

/-- A not-yet-in-room state with a blank username. -/
def stLobbyBlank : AppState := { stLobby with username := " " }

/-- The timer scheduled for the session of `stPending` (handle 0,
deadline 30). -/
def pendingTimeout : Timeout := { connId := 0, targetPeerId := "p2yyyy", deadline := 30 }

/-- The session record both discovery paths install (the object literal
of the source): derived display name, fresh connection handle, no data
channel yet, not connected. -/
def freshSession (st : AppState) (peerId : String) : PeerConnection :=
  { id := peerId, username := "Peer-" ++ peerId.take 6, connection := st.nextConnId,
    dataChannel := none, connected := false }

/-- Setting a key makes it retrievable. -/
theorem alistGet_alistSet_self {κ α : Type} [DecidableEq κ] (m : List (κ × α)) (k : κ)
    (v : α) : alistGet (alistSet m k v) k = some v := by
  induction m with
  | nil => simp [alistSet, alistGet]
  | cons hd tl ih =>
      obtain ⟨a, w⟩ := hd
      by_cases h : a = k
      · simp [alistSet, alistGet, h]
      · simp [alistSet, alistGet, h, ih]

/-- Setting a key leaves lookups of other keys unchanged. -/
theorem alistGet_alistSet_ne {κ α : Type} [DecidableEq κ] (m : List (κ × α)) (k x : κ)
    (v : α) (hx : ¬ x = k) : alistGet (alistSet m k v) x = alistGet m x := by
  have hkx : ¬ k = x := fun h => hx h.symm
  induction m with
  | nil => simp [alistSet, alistGet, hkx]
  | cons hd tl ih =>
      obtain ⟨a, w⟩ := hd
      by_cases h : a = k
      · subst h
        simp [alistSet, alistGet, hkx]
      · simp [alistSet, alistGet, h, ih]

/-- Lookup after the get-then-set update pattern. -/
theorem alistGet_alistUpdate {κ α : Type} [DecidableEq κ] (m : List (κ × α)) (k : κ)
    (f : α → α) (x : κ) :
    alistGet (alistUpdate m k f) x =
      if x = k then (alistGet m k).map f else alistGet m x := by
  unfold alistUpdate
  cases h : alistGet m k with
  | none =>
      by_cases hx : x = k
      · subst hx; simp [h]
      · simp [hx]
  | some v =>
      by_cases hx : x = k
      · subst hx; simp [h, alistGet_alistSet_self]
      · simp [hx, alistGet_alistSet_ne m k x (f v) hx]

/-- Every key present after a set was present before or is the set key. -/
theorem mem_keys_alistSet {κ α : Type} [DecidableEq κ] (m : List (κ × α)) (k : κ) (v : α)
    (x : κ) (hx : x ∈ (alistSet m k v).map Prod.fst) :
    x ∈ m.map Prod.fst ∨ x = k := by
  induction m with
  | nil =>
      simp only [alistSet, List.map_cons, List.map_nil, List.mem_singleton] at hx
      exact Or.inr hx
  | cons hd tl ih =>
      obtain ⟨a, w⟩ := hd
      by_cases h : a = k
      · rw [show alistSet ((a, w) :: tl) k v = (k, v) :: tl from by
          simp only [alistSet, if_pos h]] at hx
        simp only [List.map_cons, List.mem_cons] at hx
        rcases hx with hx | hx
        · exact Or.inr hx
        · exact Or.inl (by simp only [List.map_cons, List.mem_cons]; exact Or.inr hx)
      · rw [show alistSet ((a, w) :: tl) k v = (a, w) :: alistSet tl k v from by
          simp only [alistSet, if_neg h]] at hx
        simp only [List.map_cons, List.mem_cons] at hx
        rcases hx with hx | hx
        · exact Or.inl (by simp only [List.map_cons, List.mem_cons]; exact Or.inl hx)
        · rcases ih hx with h2 | h2
          · exact Or.inl (by simp only [List.map_cons, List.mem_cons]; exact Or.inr h2)
          · exact Or.inr h2

/-- A set on a map with pairwise-distinct keys keeps the keys pairwise
distinct. -/
theorem keysNodup_alistSet {κ α : Type} [DecidableEq κ] (m : List (κ × α)) (k : κ) (v : α)
    (h : keysNodup m) : keysNodup (alistSet m k v) := by
  induction m with
  | nil =>
      unfold keysNodup
      simp [alistSet]
  | cons hd tl ih =>
      obtain ⟨a, w⟩ := hd
      unfold keysNodup at h ⊢
      rw [List.map_cons, List.nodup_cons] at h
      by_cases hak : a = k
      · rw [show alistSet ((a, w) :: tl) k v = (k, v) :: tl from by
          simp only [alistSet, if_pos hak]]
        rw [List.map_cons, List.nodup_cons]
        rw [← hak]
        exact h
      · rw [show alistSet ((a, w) :: tl) k v = (a, w) :: alistSet tl k v from by
          simp only [alistSet, if_neg hak]]
        rw [List.map_cons, List.nodup_cons]
        constructor
        · intro hmem
          rcases mem_keys_alistSet tl k v a hmem with h2 | h2
          · exact h.1 h2
          · exact hak h2
        · exact ih h.2

/-- Closing an already-closed connection state changes nothing. -/
theorem closeOne_idem (c : Conn) : closeOne (closeOne c) = closeOne c := rfl

/-- Lookup after closing one connection of the store. -/
theorem alistGet_closeConn (conns : List (Nat × Conn)) (cid x : Nat) :
    alistGet (closeConn conns cid) x =
      if x = cid then (alistGet conns cid).map closeOne else alistGet conns x := by
  unfold closeConn
  exact alistGet_alistUpdate conns cid closeOne x

/-- Lookup after the close loop of `leaveRoom`: every connection whose
handle is in the closed list ends in state "closed"; the others are
untouched. -/
theorem alistGet_foldl_closeConn (cids : List Nat) (conns : List (Nat × Conn)) (x : Nat) :
    alistGet (cids.foldl closeConn conns) x =
      if x ∈ cids then (alistGet conns x).map closeOne else alistGet conns x := by
  induction cids generalizing conns with
  | nil => simp
  | cons hd tl ih =>
      rw [List.foldl_cons, ih]
      by_cases hxh : x = hd
      · subst hxh
        rw [alistGet_closeConn, if_pos rfl]
        by_cases hx : x ∈ tl
        · rw [if_pos hx, if_pos (List.mem_cons_self x tl)]
          cases alistGet conns x <;> simp [closeOne_idem]
        · rw [if_neg hx, if_pos (List.mem_cons_self x tl)]
      · rw [alistGet_closeConn, if_neg hxh]
        by_cases hx : x ∈ tl
        · rw [if_pos hx, if_pos (List.mem_cons_of_mem hd hx)]
        · rw [if_neg hx, if_neg (by simp [hxh, hx])]

/-- `handleAnswer` never touches the session map. -/
theorem handleAnswer_peers (st : AppState) (f : String) :
    (handleAnswer st f).peers = st.peers := by
  simp only [handleAnswer]
  cases alistGet (addMessage st "System"
    ("📨 Received connection answer from " ++ f.take 6)).peers f <;> rfl

/-- `handleCandidate` never touches the session map. -/
theorem handleCandidate_peers (st : AppState) (f : String) :
    (handleCandidate st f).peers = st.peers := by
  unfold handleCandidate
  cases alistGet st.peers f <;> rfl

/-- The candidate loop of the poll handler never touches the session
map. -/
theorem foldl_handleCandidate_peers (l : List String) (st : AppState) :
    (l.foldl handleCandidate st).peers = st.peers := by
  induction l generalizing st with
  | nil => rfl
  | cons hd tl ih => rw [List.foldl_cons, ih, handleCandidate_peers]

/-- The session map after `handleOffer`: the fresh Responder session is
set under the originating peer id, unconditionally. -/
theorem handleOffer_peers (st : AppState) (f : String) :
    (handleOffer st f).peers = alistSet st.peers f (freshSession st f) := rfl

/-- The session map after `connectToPeer`: the fresh Initiator session is
set under the listed peer id. -/
theorem connectToPeer_peers (st : AppState) (p : String) :
    (connectToPeer st p).peers = alistSet st.peers p (freshSession st p) := rfl

/-- The join loop over the listed peers keeps the session keys pairwise
distinct. -/
theorem keysNodup_foldl_connectToPeer (l : List String) (st : AppState)
    (h : keysNodup st.peers) : keysNodup ((l.foldl connectToPeer st).peers) := by
  induction l generalizing st with
  | nil => exact h
  | cons hd tl ih =>
      rw [List.foldl_cons]
      refine ih _ ?_
      rw [connectToPeer_peers]
      exact keysNodup_alistSet _ _ _ h

/-- C10: `leaveRoom` leaves the chat message log unchanged except for
appending one System diagnostic, and leaves the username, the room
identifier and the local peer identifier unchanged; in particular no
previously appended message is removed or mutated. -/
theorem C10_leaveRoom_frame (st : AppState) :
    (leaveRoom st).messages = st.messages ++ [mkMessage st.now "System" "👋 Left the room" false]
  ∧ (leaveRoom st).username = st.username
  ∧ (leaveRoom st).roomId = st.roomId
  ∧ (leaveRoom st).myPeerId = st.myPeerId :=
  ⟨rfl, rfl, rfl, rfl⟩

/-- C5: `leaveRoom`, from any room state, stops the poll cycle, closes
every session's connection (the close primitive cannot fail, so every
closure completes independently of the others), empties the session
collection and resets the connectivity summary to zero connected peers
("Disconnected"). -/
theorem C5_leaveRoom_teardown (st : AppState) :
    (leaveRoom st).polling = false
  ∧ (leaveRoom st).peers = []
  ∧ (leaveRoom st).isInRoom = false
  ∧ (leaveRoom st).connectionStatus = "Disconnected"
  ∧ (leaveRoom st).isConnecting = false
  ∧ connectedCount (leaveRoom st).peers = 0
  ∧ (∀ cid, cid ∈ st.peers.map (fun kp => kp.2.connection) →
      alistGet (leaveRoom st).conns cid = (alistGet st.conns cid).map closeOne) := by
  refine ⟨rfl, rfl, rfl, rfl, rfl, rfl, ?_⟩
  intro cid hcid
  show alistGet ((st.peers.map (fun kp => kp.2.connection)).foldl closeConn st.conns) cid = _
  rw [alistGet_foldl_closeConn, if_pos hcid]

/-- Witness for C5: in the concrete room state `stBase`, the one
session's connection (handle 0) is in state "closed" after leaving. -/
theorem C5_leaveRoom_teardown_witness :
    alistGet (leaveRoom stBase).conns 0 = (alistGet stBase.conns 0).map closeOne :=
  (C5_leaveRoom_teardown stBase).2.2.2.2.2.2 0 (by decide)

/-- C3 (amended): an inbound payload that parses as an object with sender
and content is appended to the log with Remote origin (`isOwn = false`);
a malformed payload makes `JSON.parse` throw and, the handler having no
try/catch, the exception escapes the handler: no message is appended and
no diagnostic is logged. -/
theorem C3_inbound_payload (st : AppState) (s c raw : String) :
    dataChannelOnMessage st (InboundData.parsed s c) =
      Except.ok { st with messages := st.messages ++ [mkMessage st.now s c false] }
  ∧ dataChannelOnMessage st (InboundData.malformed raw) =
      Except.error "SyntaxError: Unexpected token in JSON" :=
  ⟨rfl, rfl⟩

/-- Counterexample for C3 as stated: on the live session of `stInbound`,
a malformed inbound payload is not dropped-and-logged — the handler
propagates the parse exception (and consequently appends nothing). -/
theorem C3_counterexample :
    dataChannelOnMessage stInbound (InboundData.malformed "not json") =
      Except.error "SyntaxError: Unexpected token in JSON"
  ∧ alistGet stInbound.peers "p1zzzz" = some { id := "p1zzzz", username := "Peer-p1zzzz", connection := 0, dataChannel := some { readyState := "open" }, connected := true } :=
  ⟨rfl, by decide⟩

/-- C8 (amended): an inbound answer whose originating peer id has no
session appends the generic receipt diagnostic and changes nothing else
(no session created, no connection touched, no error); an inbound
candidate for an unknown peer id is silently discarded — the state is
completely unchanged, so in particular nothing is logged. -/
theorem C8_unknown_peer_events (st : AppState) (f : String)
    (h : alistGet st.peers f = none) :
    handleAnswer st f = addMessage st "System" ("📨 Received connection answer from " ++ f.take 6)
  ∧ (handleAnswer st f).peers = st.peers
  ∧ (handleAnswer st f).conns = st.conns
  ∧ handleCandidate st f = st := by
  have hA : handleAnswer st f =
      addMessage st "System" ("📨 Received connection answer from " ++ f.take 6) := by
    have h2 : alistGet (addMessage st "System"
        ("📨 Received connection answer from " ++ f.take 6)).peers f = none := h
    simp only [handleAnswer, h2]
  have hC : handleCandidate st f = st := by
    simp only [handleCandidate, h]
  exact ⟨hA, by rw [hA]; rfl, by rw [hA]; rfl, hC⟩

/-- Witness for C8: in `stBase` the peer id "p9qqqq" has no session; the
answer is logged-and-ignored and the candidate is silently dropped. -/
theorem C8_unknown_peer_events_witness :
    handleAnswer stBase "p9qqqq" = addMessage stBase "System" ("📨 Received connection answer from " ++ "p9qqqq".take 6)
  ∧ (handleAnswer stBase "p9qqqq").peers = stBase.peers
  ∧ (handleAnswer stBase "p9qqqq").conns = stBase.conns
  ∧ handleCandidate stBase "p9qqqq" = stBase :=
  C8_unknown_peer_events stBase "p9qqqq" (by decide)

/-- Counterexample for C8 as stated: a candidate from the unknown peer
"p9qqqq" leaves the state of `stBase` completely unchanged — no log entry
is appended, contradicting "the event is ignored and logged" for
candidates. -/
theorem C8_counterexample :
    alistGet stBase.peers "p9qqqq" = none
  ∧ handleCandidate stBase "p9qqqq" = stBase
  ∧ (handleCandidate stBase "p9qqqq").messages = stBase.messages :=
  ⟨by decide, by decide, by decide⟩

/-- C7 (amended): a join response indicating rejection leaves the room
not entered — the in-room flag, the poll cycle, the session map and the
connection store are all unchanged — but the only message appended is the
pre-request "Joining room" notice (no rejection diagnostic is surfaced)
and the connecting flag is left set. -/
theorem C7_join_rejected (st : AppState) (resp : JoinResponse)
    (hu : ¬ jsTrim st.username = "") (hr : ¬ jsTrim st.roomId = "")
    (hf : resp.success = false) :
    (joinRoom st resp).isInRoom = st.isInRoom
  ∧ (joinRoom st resp).polling = st.polling
  ∧ (joinRoom st resp).peers = st.peers
  ∧ (joinRoom st resp).conns = st.conns
  ∧ (joinRoom st resp).messages = st.messages ++ [mkMessage st.now "System" ("🔄 Joining room " ++ st.roomId ++ "...") false]
  ∧ (joinRoom st resp).isConnecting = true := by
  have hcond : ¬ (jsTrim st.username = "" ∨ jsTrim st.roomId = "") := by
    rintro (h | h)
    exacts [hu h, hr h]
  simp only [joinRoom, if_neg hcond, hf, Bool.false_eq_true, if_false]
  exact ⟨rfl, rfl, rfl, rfl, rfl, rfl⟩

/-- Witness for C7: the concrete lobby state joined against a rejecting
response. -/
theorem C7_join_rejected_witness :
    (joinRoom stLobby { success := false }).isInRoom = stLobby.isInRoom
  ∧ (joinRoom stLobby { success := false }).polling = stLobby.polling
  ∧ (joinRoom stLobby { success := false }).peers = stLobby.peers
  ∧ (joinRoom stLobby { success := false }).conns = stLobby.conns
  ∧ (joinRoom stLobby { success := false }).messages = stLobby.messages ++ [mkMessage stLobby.now "System" ("🔄 Joining room " ++ stLobby.roomId ++ "...") false]
  ∧ (joinRoom stLobby { success := false }).isConnecting = true :=
  C7_join_rejected stLobby { success := false } (by decide) (by decide) rfl

/-- Counterexample for C7 as stated: on the rejecting response the room
is indeed not entered, but the message log receives only the pre-request
joining notice — no terminal rejection diagnostic is surfaced (and the
connecting flag is stuck at true). -/
theorem C7_counterexample :
    (joinRoom stLobby { success := false, peers := [] }).messages = stLobby.messages ++ [mkMessage 5 "System" "🔄 Joining room ROOM42..." false]
  ∧ (joinRoom stLobby { success := false, peers := [] }).isInRoom = false
  ∧ (joinRoom stLobby { success := false, peers := [] }).polling = false
  ∧ (joinRoom stLobby { success := false, peers := [] }).isConnecting = true := by
  refine ⟨by decide, by decide, by decide, by decide⟩

/-- C6 (amended): joining with a blank (or whitespace-only) username or
room id is rejected before any signaling request — the only effect is the
validation diagnostic, and no request is submitted; sending with blank
(or whitespace-only) text is rejected before any wire transmission, but
silently: the state is completely unchanged and no diagnostic is
surfaced.  Both operations are total (no exception propagates). -/
theorem C6_input_validation (st : AppState) (resp : JoinResponse) :
    ((jsTrim st.username = "" ∨ jsTrim st.roomId = "") →
        joinRoom st resp = addMessage st "System" "❌ Please enter both username and room ID"
      ∧ (joinRoom st resp).signalsOut = st.signalsOut)
  ∧ (jsTrim st.messageInput = "" → sendMessage st = st) := by
  constructor
  · intro h
    have h1 : joinRoom st resp =
        addMessage st "System" "❌ Please enter both username and room ID" := by
      simp only [joinRoom, if_pos h]
    exact ⟨h1, by rw [h1]; rfl⟩
  · intro h
    simp only [sendMessage, if_pos h]

/-- Witness for C6: the blank-username lobby state is rejected with the
diagnostic and no request, and the whitespace-only message input is
rejected with no state change. -/
theorem C6_input_validation_witness :
    (joinRoom stLobbyBlank { success := true } = addMessage stLobbyBlank "System" "❌ Please enter both username and room ID"
      ∧ (joinRoom stLobbyBlank { success := true }).signalsOut = stLobbyBlank.signalsOut)
  ∧ sendMessage stBlankInput = stBlankInput :=
  ⟨(C6_input_validation stLobbyBlank { success := true }).1 (by decide),
   (C6_input_validation stBlankInput { success := true }).2 (by decide)⟩

/-- Counterexample for C6 as stated: calling `sendMessage` on whitespace
input "   " leaves the state identical — in particular the message log is
unchanged, so no diagnostic is surfaced for this user input error. -/
theorem C6_counterexample :
    stBlankInput.messageInput = "   "
  ∧ sendMessage stBlankInput = stBlankInput
  ∧ (sendMessage stBlankInput).messages = stBlankInput.messages :=
  ⟨rfl, by decide, by decide⟩

/-- C4 (amended): the per-session timer always fires 30 time units after
session creation, whatever the session's state; when the captured
connection is not in state "connected" the callback appends the timeout
diagnostic and clears the connecting flag, but forces no Failed state and
removes no session (the session map and the connection store are
unchanged); when it is "connected" the callback does nothing.  The timer
is never cancelled — in particular leaving the room does not clear it, so
it still fires (and still appends its diagnostic) after the session is
closed. -/
theorem C4_timeout_behaviour (st : AppState) (t : Timeout) (c : Conn)
    (h : alistGet st.conns t.connId = some c) :
    (¬ c.connectionState = "connected" →
        timeoutFire st t = { addMessage st "System" (timeoutMsg t.targetPeerId) false with isConnecting := false }
      ∧ (timeoutFire st t).peers = st.peers
      ∧ (timeoutFire st t).conns = st.conns)
  ∧ (c.connectionState = "connected" → timeoutFire st t = st)
  ∧ (∀ p b, ((createPeerConnection st p b).1).timeouts = st.timeouts ++ [{ connId := st.nextConnId, targetPeerId := p, deadline := st.now + 30 }])
  ∧ (leaveRoom st).timeouts = st.timeouts := by
  refine ⟨?_, ?_, ?_, rfl⟩
  · intro hne
    have h1 : timeoutFire st t =
        { addMessage st "System" (timeoutMsg t.targetPeerId) false with isConnecting := false } := by
      simp only [timeoutFire, h, if_neg hne]
    exact ⟨h1, by rw [h1]; rfl, by rw [h1]; rfl⟩
  · intro hc
    simp only [timeoutFire, h, if_pos hc]
  · intro p b
    cases b <;> rfl

/-- Witness for C4: the pending session of `stPending` (connection state
"new") at its deadline. -/
theorem C4_timeout_behaviour_witness :
    timeoutFire stPending pendingTimeout = { addMessage stPending "System" (timeoutMsg pendingTimeout.targetPeerId) false with isConnecting := false }
  ∧ (timeoutFire stPending pendingTimeout).peers = stPending.peers
  ∧ (timeoutFire stPending pendingTimeout).conns = stPending.conns :=
  (C4_timeout_behaviour stPending pendingTimeout {} (by decide)).1 (by decide)

/-- Counterexample for C4 as stated: at the deadline the session of
`stPending` has not reached "connected", yet after the timer fires the
session is still present and its connection state is still "new" — the
session is not forced to Failed and not scheduled for removal (only the
diagnostic is appended).  Moreover the timer still appends its diagnostic
when fired after `leaveRoom` has closed the session, and leaving does not
cancel it. -/
theorem C4_counterexample :
    (timeoutFire stPending pendingTimeout).peers = stPending.peers
  ∧ alistGet (timeoutFire stPending pendingTimeout).conns 0 = some { connectionState := "new", remoteDescription := false, candidatesAdded := 0 }
  ∧ (timeoutFire stPending pendingTimeout).messages = stPending.messages ++ [mkMessage 30 "System" (timeoutMsg "p2yyyy") false]
  ∧ (timeoutFire (leaveRoom stPending) pendingTimeout).messages = (leaveRoom stPending).messages ++ [mkMessage 30 "System" (timeoutMsg "p2yyyy") false]
  ∧ (leaveRoom stPending).timeouts = stPending.timeouts :=
  ⟨by decide, by decide, by decide, by decide, by decide⟩

/-- The session map after one poll cycle: only an inbound offer changes
it, by setting the fresh Responder session under the offering peer's
id. -/
theorem pollSignalingServer_peers (st : AppState) (resp : PollResponse) :
    (pollSignalingServer st resp).peers =
      (match resp.offer with
       | some f => alistSet st.peers f (freshSession st f)
       | none => st.peers) := by
  simp only [pollSignalingServer]
  rw [foldl_handleCandidate_peers]
  cases resp.offer with
  | some f =>
      cases resp.answer with
      | some g => rw [handleAnswer_peers]; exact handleOffer_peers _ f
      | none => exact handleOffer_peers _ f
  | none =>
      cases resp.answer with
      | some g => rw [handleAnswer_peers]
      | none => rfl

/-- C2 (amended): the session collection, keyed by peer id, never holds
two sessions for one peer — a poll cycle and a join both preserve
pairwise-distinct keys; however, an inbound offer for a peer id is not
ignored when a session already exists: `handleOffer` always installs the
fresh Responder session under that id, replacing any existing session
whatever its state. -/
theorem C2_session_uniqueness (st : AppState) (h : keysNodup st.peers) (f : String)
    (resp : PollResponse) (jr : JoinResponse) :
    keysNodup (pollSignalingServer st resp).peers
  ∧ keysNodup (joinRoom st jr).peers
  ∧ alistGet (handleOffer st f).peers f = some (freshSession st f) := by
  refine ⟨?_, ?_, ?_⟩
  · rw [pollSignalingServer_peers]
    cases resp.offer with
    | some f2 => exact keysNodup_alistSet _ _ _ h
    | none => exact h
  · by_cases hval : jsTrim st.username = "" ∨ jsTrim st.roomId = ""
    · simp only [joinRoom, if_pos hval]
      exact h
    · simp only [joinRoom, if_neg hval]
      by_cases hs : jr.success = true
      · simp only [hs, if_true]
        by_cases hp : 0 < jr.peers.length
        · simp only [if_pos hp]
          exact keysNodup_foldl_connectToPeer _ _ h
        · simp only [if_neg hp]
          exact h
      · simp only [Bool.not_eq_true] at hs
        simp only [hs, Bool.false_eq_true, if_false]
        exact h
  · rw [handleOffer_peers]
    exact alistGet_alistSet_self _ _ _

/-- Witness for C2: the concrete room state `stBase`, polled with an
offer from the new peer "p3xxxx" and joined against a one-peer list. -/
theorem C2_session_uniqueness_witness :
    keysNodup (pollSignalingServer stBase { offer := some "p3xxxx" }).peers
  ∧ keysNodup (joinRoom stBase { success := true, peers := ["p3xxxx"] }).peers
  ∧ alistGet (handleOffer stBase "p3xxxx").peers "p3xxxx" = some (freshSession stBase "p3xxxx") :=
  C2_session_uniqueness stBase (by decide) "p3xxxx" { offer := some "p3xxxx" } { success := true, peers := ["p3xxxx"] }

/-- Counterexample for C2 as stated: in `stOffer` the peer "p1zzzz"
already has a session whose connection is "connected" (neither Failed nor
Closed), yet an inbound offer from "p1zzzz" is not ignored: the map entry
afterwards is a different, fresh session (new connection handle 1, no
data channel, not connected) — the existing session was replaced. -/
theorem C2_counterexample :
    alistGet stOffer.peers "p1zzzz" = some { id := "p1zzzz", username := "Peer-p1zzzz", connection := 0, dataChannel := some { readyState := "open" }, connected := true }
  ∧ alistGet stOffer.conns 0 = some { connectionState := "connected", remoteDescription := true, candidatesAdded := 0 }
  ∧ alistGet (handleOffer stOffer "p1zzzz").peers "p1zzzz" = some { id := "p1zzzz", username := "Peer-p1zzzz", connection := 1, dataChannel := none, connected := false } :=
  ⟨by decide, by decide, by decide⟩

/-- C1: `sendMessage` with non-blank text: when no session has a usable
open channel, nothing goes on the wire and the only appended message is
the no-peers diagnostic (no local echo, input left as typed); when at
least one session has a usable open channel, exactly one local echo of
the trimmed text is appended with Own origin and exactly one serialized
sender/content payload goes out per such session. -/
theorem C1_sendMessage_broadcast (st : AppState) (h : ¬ jsTrim st.messageInput = "") :
    (usableSessions st = [] →
        (sendMessage st).messages = st.messages ++ [mkMessage st.now "System" "❌ No connected peers to send message to" false]
      ∧ (sendMessage st).wireSent = st.wireSent
      ∧ (sendMessage st).messageInput = st.messageInput)
  ∧ (¬ usableSessions st = [] →
        (sendMessage st).messages = st.messages ++ [mkMessage st.now st.username (jsTrim st.messageInput) true]
      ∧ (sendMessage st).wireSent = st.wireSent ++ (usableSessions st).map (fun k => (k, ({ sender := st.username, content := jsTrim st.messageInput } : WirePayload)))
      ∧ (sendMessage st).messageInput = "") := by
  constructor
  · intro hz
    have hfil : st.peers.filter (fun kp => channelUsable kp.2) = [] := by
      have := hz
      unfold usableSessions at this
      exact List.map_eq_nil_iff.mp this
    have hcnt : ¬ 0 < sentCount st.peers := by
      unfold sentCount
      rw [hfil]
      simp
    simp only [sendMessage, if_neg h, if_neg hcnt, hfil]
    refine ⟨by trivial, by simp [addMessage], by trivial⟩
  · intro hnz
    have hfil : ¬ st.peers.filter (fun kp => channelUsable kp.2) = [] := by
      intro hh
      refine hnz ?_
      unfold usableSessions
      rw [hh]
      rfl
    have hcnt : 0 < sentCount st.peers := by
      unfold sentCount
      exact List.length_pos.mpr hfil
    simp only [sendMessage, if_neg h, if_pos hcnt]
    refine ⟨by trivial, ?_, by trivial⟩
    show st.wireSent ++ _ = st.wireSent ++ _
    congr 1
    unfold usableSessions
    rw [List.map_map]
    rfl

/-- Witness for C1: sending " hi " in `stTyped` (one usable session). -/
theorem C1_sendMessage_broadcast_witness :
    (sendMessage stTyped).messages = stTyped.messages ++ [mkMessage stTyped.now stTyped.username (jsTrim stTyped.messageInput) true]
  ∧ (sendMessage stTyped).wireSent = stTyped.wireSent ++ (usableSessions stTyped).map (fun k => (k, ({ sender := stTyped.username, content := jsTrim stTyped.messageInput } : WirePayload)))
  ∧ (sendMessage stTyped).messageInput = "" :=
  (C1_sendMessage_broadcast stTyped (by decide)).2 (by decide)

/-- C9: the message input field is cleared exactly when at least one wire
transmission happened; with blank input or no usable channel, no
transmission happens and the typed text is left unchanged. -/
theorem C9_input_reset (st : AppState) :
    (¬ jsTrim st.messageInput = "" → ¬ usableSessions st = [] →
        (sendMessage st).messageInput = ""
      ∧ (sendMessage st).wireSent.length = st.wireSent.length + (usableSessions st).length)
  ∧ (jsTrim st.messageInput = "" ∨ usableSessions st = [] →
        (sendMessage st).messageInput = st.messageInput
      ∧ (sendMessage st).wireSent = st.wireSent) := by
  constructor
  · intro h hnz
    have hfil : ¬ st.peers.filter (fun kp => channelUsable kp.2) = [] := by
      intro hh
      refine hnz ?_
      unfold usableSessions
      rw [hh]
      rfl
    have hcnt : 0 < sentCount st.peers := by
      unfold sentCount
      exact List.length_pos.mpr hfil
    simp only [sendMessage, if_neg h, if_pos hcnt]
    refine ⟨by trivial, ?_⟩
    show (st.wireSent ++ _).length = _
    rw [List.length_append]
    congr 1
    unfold usableSessions
    rw [List.length_map, List.length_map]
  · intro hz
    cases hz with
    | inl h => simp only [sendMessage, if_pos h]; exact ⟨by trivial, by trivial⟩
    | inr h =>
        by_cases ht : jsTrim st.messageInput = ""
        · simp only [sendMessage, if_pos ht]; exact ⟨by trivial, by trivial⟩
        · have hfil : st.peers.filter (fun kp => channelUsable kp.2) = [] := by
            have := h
            unfold usableSessions at this
            exact List.map_eq_nil_iff.mp this
          have hcnt : ¬ 0 < sentCount st.peers := by
            unfold sentCount
            rw [hfil]
            simp
          simp only [sendMessage, if_neg ht, if_neg hcnt, hfil]
          exact ⟨by trivial, by simp [addMessage]⟩

/-- Witness for C9: sending " hi " in `stTyped` clears the input and puts
one payload on the wire. -/
theorem C9_input_reset_witness :
    (sendMessage stTyped).messageInput = ""
  ∧ (sendMessage stTyped).wireSent.length = stTyped.wireSent.length + (usableSessions stTyped).length :=
  (C9_input_reset stTyped).1 (by decide) (by decide)
